import Mathlib

/-!
Verification development for the screenplay-analysis core: the stage
orchestration engine, the JSON response sanitizer, the output validator,
the TCC reconciler heuristics, and the content-addressable result cache.
Each definition is a shallow embedding of the corresponding Python
function; theorems settle the specification claims against them.
Python floats (confidence scores, ratios) are modelled as rationals;
ISO timestamps are modelled as abstract natural-number instants;
formatted log strings are modelled as structured log entries carrying
the same data.
-/

namespace SA

/-- Lowercase a string character-wise (models Python str.lower; ASCII range). -/
def strLower (s : String) : String := String.mk (s.data.map Char.toLower)

/-- Python whitespace recognized by str.strip. -/
def pyIsSpace (c : Char) : Bool :=
  c = ' ' || c = '\t' || c = '\n' || c = '\r' || c = '\x0b' || c = '\x0c'

/-- Python str.strip: drop leading and trailing whitespace. -/
def pyStrip (s : String) : String :=
  String.mk (((s.data.dropWhile pyIsSpace).reverse.dropWhile pyIsSpace).reverse)

/-- Substring test on character lists: does the needle occur contiguously in the haystack? -/
def sublistChars (needle : List Char) : List Char → Bool
  | [] => needle.isEmpty
  | c :: t => needle.isPrefixOf (c :: t) || sublistChars needle t

/-- Python `needle in hay` on strings: contiguous substring containment. -/
def strContainsSub (hay needle : String) : Bool := sublistChars needle.data hay.data

/-- A TCC (conflict-thread candidate), as in prompts/schemas.py class TCC. -/
structure TCC where
  tcc_id : String
  super_objective : String
  core_conflict_type : String
  evidence_scenes : List String
  confidence : ℚ
deriving Repr, DecidableEq

/-- Tail of a scene id after the leading S: 2-3 digits plus optional lowercase letter. -/
def sceneDigitsTail : List Char → Bool
  | [a, b] => a.isDigit && b.isDigit
  | [a, b, c] => a.isDigit && b.isDigit && (c.isDigit || c.isLower)
  | [a, b, c, d] => a.isDigit && b.isDigit && c.isDigit && d.isLower
  | _ => false

/-- Scene id pattern S + 2-3 digits + optional lowercase suffix. -/
def valid_scene_id (s : String) : Bool :=
  match s.data with
  | 'S' :: rest => sceneDigitsTail rest
  | _ => false

/-- TCC id pattern TCC_ + exactly 2 digits. -/
def valid_tcc_id (s : String) : Bool :=
  match s.data with
  | ['T', 'C', 'C', '_', a, b] => a.isDigit && b.isDigit
  | _ => false

/-- The conflict-type enumeration of class TCC. -/
def conflictTypes : List String := ["interpersonal", "internal", "ideological"]

/-- Field-level validation of one TCC: id pattern, objective length 10-200,
conflict-type enum, at least 2 evidence scenes each matching the scene-id
pattern, confidence within 0..1 and at least 0.5 (validator). -/
def tcc_valid (t : TCC) : Bool :=
  valid_tcc_id t.tcc_id
  && decide (10 ≤ t.super_objective.data.length)
  && decide (t.super_objective.data.length ≤ 200)
  && decide (t.core_conflict_type ∈ conflictTypes)
  && decide (2 ≤ t.evidence_scenes.length)
  && t.evidence_scenes.all valid_scene_id
  && decide ((0 : ℚ) ≤ t.confidence)
  && decide (t.confidence ≤ 1)
  && decide ((1/2 : ℚ) ≤ t.confidence)

/-- Discoverer stage metadata, as in class DiscovererMetadata. -/
structure DiscovererMetadata where
  total_scenes_analyzed : Nat
  primary_evidence_available : Bool
  fallback_mode : Bool
  fallback_reason : Option String
deriving Repr, DecidableEq

/-- Metadata validation: total_scenes_analyzed has a ge=1 bound. -/
def discoverer_metadata_valid (m : DiscovererMetadata) : Bool :=
  decide (1 ≤ m.total_scenes_analyzed)

/-- Stage 1 output, as in class DiscovererOutput. -/
structure DiscovererOutput where
  tccs : List TCC
  metadata : DiscovererMetadata
deriving Repr, DecidableEq

/-- Validation of a complete Stage-1 output: list length 1..5, all TCC ids
unique (validator), every TCC field-valid, metadata valid. -/
def discoverer_output_valid (o : DiscovererOutput) : Bool :=
  decide (1 ≤ o.tccs.length)
  && decide (o.tccs.length ≤ 5)
  && decide ((o.tccs.map (fun t => t.tcc_id)).dedup.length = o.tccs.length)
  && o.tccs.all tcc_valid
  && discoverer_metadata_valid o.metadata

/-- A relationship change between two characters, as in class RelationChange. -/
structure RelationChange where
  chars : List String
  from_ : String
  to_ : String
deriving Repr, DecidableEq

/-- Setup-payoff causal links of a scene, as in class SetupPayoff. -/
structure SetupPayoff where
  setup_for : List String
  payoff_from : List String
deriving Repr, DecidableEq

/-- A scene, restricted to the fields the verified functions read. -/
structure Scene where
  scene_id : String
  scene_mission : String
  key_events : List String
  relation_change : List RelationChange
  setup_payoff : SetupPayoff
deriving Repr, DecidableEq

/-- A script: an ordered list of scenes. -/
structure Script where
  scenes : List Scene
deriving Repr, DecidableEq

/-- The stop-word table of has_keyword_overlap. -/
def STOP_WORDS : List String :=
  ["的", "了", "是", "在", "和", "与", "被", "把", "对", "到", "为",
   "着", "过", "不", "这", "那", "有", "要", "会", "能", "想",
   "the", "a", "an", "is", "are", "was", "were", "to", "of", "and",
   "in", "for", "on", "with", "as", "at", "by", "from"]

/-- A CJK character in the range the source regex uses (U+4E00 to U+9FA5). -/
def isCjk (c : Char) : Bool := 0x4e00 ≤ c.toNat && c.toNat ≤ 0x9fa5

/-- A Latin letter, as matched by the source regex for English tokens. -/
def isLatin (c : Char) : Bool := c.isAlpha

/-- Accumulator pass extracting maximal runs of characters satisfying p
(models re.findall of a character-class-plus pattern). -/
def runsAux (p : Char → Bool) : List Char → List Char → List String
  | [], acc => if acc.isEmpty then [] else [String.mk acc.reverse]
  | c :: cs, acc =>
    if p c then runsAux p cs (c :: acc)
    else if acc.isEmpty then runsAux p cs []
    else String.mk acc.reverse :: runsAux p cs []

/-- Maximal runs of characters satisfying p in a string. -/
def runsBy (p : Char → Bool) (s : String) : List String := runsAux p s.data []

/-- Keyword extraction of has_keyword_overlap: Chinese character runs plus
lowercased Latin word tokens, with stop words removed (set semantics via dedup). -/
def keywordSet (s : String) : List String :=
  ((runsBy isCjk s) ++ (runsBy isLatin s).map strLower).dedup.filter
    (fun w => decide (w ∉ STOP_WORDS))

/-- The overlap set of has_keyword_overlap: shared keywords, plus any keyword
of text1 of length at least 2 sharing a substring-containment relation with a
keyword of text2 of length at least 2. -/
def keywordOverlapSet (text1 text2 : String) : List String :=
  let words1 := keywordSet text1
  let words2 := keywordSet text2
  let shared := words1.filter (fun w => decide (w ∈ words2))
  let bySub := words1.filter (fun w1 =>
    decide (2 ≤ w1.data.length) &&
    words2.any (fun w2 =>
      decide (2 ≤ w2.data.length) && (strContainsSub w2 w1 || strContainsSub w1 w2)))
  (shared ++ bySub).dedup

/-- has_keyword_overlap from prompts/schemas.py: true when the overlap set
reaches min_overlap elements. -/
def has_keyword_overlap (text1 text2 : String) (minOverlap : Nat) : Bool :=
  decide (minOverlap ≤ (keywordOverlapSet text1 text2).length)

/-- Python repr of a list of strings, as produced by the f-string over
rel.chars in validate_tcc_scene_evidence. -/
def pyReprList (l : List String) : String :=
  "[" ++ String.intercalate ", "
    (l.map (fun s => String.singleton (Char.ofNat 39) ++ s ++ String.singleton (Char.ofNat 39)))
  ++ "]"

/-- The relation-change text assembled for keyword matching. -/
def relStr (r : RelationChange) : String :=
  pyReprList r.chars ++ " " ++ r.from_ ++ " " ++ r.to_

/-- The per-scene evidence check inside validate_tcc_scene_evidence:
key events, then (if non-empty) the scene mission, then relation changes. -/
def sceneHasEvidence (t : TCC) (sc : Scene) : Bool :=
  let obj := strLower t.super_objective
  sc.key_events.any (fun e => has_keyword_overlap obj (strLower e) 1)
  || (!(sc.scene_mission = "") && has_keyword_overlap obj (strLower sc.scene_mission) 1)
  || sc.relation_change.any (fun r => has_keyword_overlap obj (strLower (relStr r)) 1)

/-- Whether an evidence scene id passes the reverse-verification check:
the scene must exist in the script and carry supporting evidence. -/
def scenePasses (scenes : List Scene) (t : TCC) (sid : String) : Bool :=
  match scenes.find? (fun sc => sc.scene_id = sid) with
  | none => false
  | some sc => sceneHasEvidence t sc

/-- Structured stand-ins for the log strings of validate_tcc_scene_evidence. -/
inductive EvidenceLogEntry where
  | lackEvidence (tccId : String) (invalidCount totalCount : Nat)
  | validated (tccId : String) (validCount : Nat)
  | reducedConfidence (tccId : String) (confidence : ℚ)
  | noEvidence (tccId : String) (confidence : ℚ)
deriving Repr, DecidableEq

/-- The per-TCC transformation of validate_tcc_scene_evidence: trim evidence
to verified scenes and apply the confidence penalties with their floors. -/
def validateTccOne (scenes : List Scene) (t : TCC) : TCC :=
  let valid := t.evidence_scenes.filter (scenePasses scenes t)
  if 2 ≤ valid.length then
    { t with evidence_scenes := valid }
  else if 1 ≤ valid.length then
    { t with evidence_scenes := valid, confidence := max (1/2) (t.confidence - 1/5) }
  else
    { t with confidence := max (2/5) (t.confidence - 3/10) }

/-- The per-TCC log entries of validate_tcc_scene_evidence. -/
def validateTccOneLogs (scenes : List Scene) (t : TCC) : List EvidenceLogEntry :=
  let valid := t.evidence_scenes.filter (scenePasses scenes t)
  let invalidCount := t.evidence_scenes.length - valid.length
  let warn : List EvidenceLogEntry :=
    if invalidCount = 0 then []
    else [.lackEvidence t.tcc_id invalidCount t.evidence_scenes.length]
  let out := validateTccOne scenes t
  if 2 ≤ valid.length then warn ++ [.validated t.tcc_id valid.length]
  else if 1 ≤ valid.length then warn ++ [.reducedConfidence t.tcc_id out.confidence]
  else warn ++ [.noEvidence t.tcc_id out.confidence]

/-- validate_tcc_scene_evidence from prompts/schemas.py: every TCC is mapped
through the per-TCC check (threads are never deleted). -/
def validate_tcc_scene_evidence (tccs : List TCC) (script : Script) :
    List TCC × List EvidenceLogEntry :=
  (tccs.map (validateTccOne script.scenes),
   tccs.flatMap (validateTccOneLogs script.scenes))

/-- Size of the evidence-scene intersection as computed by the source:
cardinality of set(a) & set(b). -/
def evidenceInter (a b : List String) : Nat :=
  (a.dedup.filter (fun s => decide (s ∈ b))).length

/-- Overlap ratio with the minimum-length denominator, as computed inline in
merge_mirror_tccs and validate_tcc_independence: intersection size divided by
min(len(a), len(b)). In ℚ a zero denominator yields 0 (the source would raise
on empty lists, which validated TCCs exclude). -/
def overlapFracMin (a b : List String) : ℚ :=
  (evidenceInter a b : ℚ) / ((min a.length b.length : Nat) : ℚ)

/-- Overlap ratio with the maximum-length denominator, as computed inline in
check_antagonist_mutual_exclusion, with its explicit zero guard. -/
def overlapFracMax (a b : List String) : ℚ :=
  let total : Nat := max a.length b.length
  if 0 < total then (evidenceInter a b : ℚ) / (total : ℚ) else 0

/-- Python max with a confidence key over a nonempty list: keeps the earliest
maximal element, updating only on strictly greater confidence. -/
def pyMaxConf : TCC → List TCC → TCC
  | best, [] => best
  | best, t :: ts => pyMaxConf (if best.confidence < t.confidence then t else best) ts

/-- Structured stand-ins for the log strings of merge_mirror_tccs. -/
inductive MergeLogEntry where
  | merged (srcId dstId : String) (overlap : ℚ)
  | kept (tccId : String) (confidence : ℚ)
deriving Repr, DecidableEq

/-- Inner loop of merge_mirror_tccs: scan the indexed tail for TCCs whose
overlap with the anchor reaches the threshold, collecting them, the skip set
and the merge logs. -/
def mmInner (t1 : TCC) (thr : ℚ) :
    List (Nat × TCC) → List Nat → List TCC → List MergeLogEntry →
    List Nat × List TCC × List MergeLogEntry
  | [], skip, toMerge, logs => (skip, toMerge, logs)
  | (j, t2) :: rest, skip, toMerge, logs =>
    if j ∈ skip then mmInner t1 thr rest skip toMerge logs
    else
      let r := overlapFracMin t1.evidence_scenes t2.evidence_scenes
      if thr ≤ r then
        mmInner t1 thr rest (skip ++ [j]) (toMerge ++ [t2])
          (logs ++ [.merged t2.tcc_id t1.tcc_id r])
      else mmInner t1 thr rest skip toMerge logs

/-- Outer loop of merge_mirror_tccs over the indexed TCC list. -/
def mmOuter (thr : ℚ) :
    List (Nat × TCC) → List Nat → List TCC → List MergeLogEntry →
    List TCC × List MergeLogEntry
  | [], _, merged, logs => (merged, logs)
  | (i, t1) :: rest, skip, merged, logs =>
    if i ∈ skip then mmOuter thr rest skip merged logs
    else
      match mmInner t1 thr rest skip [t1] logs with
      | (skip2, toMerge, logs2) =>
        if 1 < toMerge.length then
          let best := pyMaxConf t1 toMerge.tail
          mmOuter thr rest skip2 (merged ++ [best])
            (logs2 ++ [.kept best.tcc_id best.confidence])
        else mmOuter thr rest skip2 (merged ++ [t1]) logs2

/-- merge_mirror_tccs from prompts/schemas.py: collapse TCC groups whose
pairwise overlap with the group anchor reaches the threshold, keeping the
highest-confidence member, logging every merge with its measured ratio. -/
def merge_mirror_tccs (tccs : List TCC) (thr : ℚ) : List TCC × List MergeLogEntry :=
  if tccs.length ≤ 1 then (tccs, [])
  else mmOuter thr tccs.enum [] [] []

/-- The fixed bilingual opposition-word table of
check_antagonist_mutual_exclusion. -/
def OPPOSITION_MARKERS : List (String × String) :=
  [("阻止", "寻求"), ("阻止", "获取"), ("阻止", "想要"),
   ("block", "get"), ("stop", "achieve"), ("prevent", "want"),
   ("反对", "支持"), ("破坏", "建立"), ("against", "for")]

/-- Opposition test between two (already lowercased) objective texts: some
marker pair occurs with its two words on opposite sides. -/
def isOpposition (obj1 obj2 : String) : Bool :=
  OPPOSITION_MARKERS.any (fun p =>
    (strContainsSub obj1 p.1 && strContainsSub obj2 p.2)
    || (strContainsSub obj1 p.2 && strContainsSub obj2 p.1))

/-- Structured stand-ins for the log strings of
check_antagonist_mutual_exclusion. -/
inductive AntagonismLogEntry where
  | mirrors (id1 id2 : String) (overlap : ℚ)
  | keeping (tccId : String)
deriving Repr, DecidableEq

/-- Insert a string into a sorted list (ascending lexicographic order). -/
def insertSorted (s : String) : List String → List String
  | [] => [s]
  | x :: xs => if s ≤ x then s :: x :: xs else x :: insertSorted s xs

/-- Ascending sort of a string list, as Python sorted on scene ids. -/
def sortStrings (l : List String) : List String := l.foldr insertSorted []

/-- Python sorted(set(a) | set(b)): the sorted deduplicated union. -/
def sortedUnion (a b : List String) : List String := sortStrings ((a ++ b).dedup)

/-- Inner loop of check_antagonist_mutual_exclusion: find the first
not-yet-skipped mirror of t1 (overlap ratio at least 0.8 with the
maximum-length denominator, plus objective opposition) and stop there. -/
def caInner (t1 : TCC) :
    List (Nat × TCC) → List Nat →
    Option (Nat × TCC) × List Nat × List AntagonismLogEntry
  | [], skip => (none, skip, [])
  | (j, t2) :: rest, skip =>
    if j ∈ skip then caInner t1 rest skip
    else
      let r := overlapFracMax t1.evidence_scenes t2.evidence_scenes
      if r < 4/5 then caInner t1 rest skip
      else if isOpposition (strLower t1.super_objective) (strLower t2.super_objective) then
        (some (j, t2), skip ++ [j],
         [.mirrors t1.tcc_id t2.tcc_id r, .keeping t1.tcc_id])
      else caInner t1 rest skip

/-- Outer loop of check_antagonist_mutual_exclusion. -/
def caOuter : List (Nat × TCC) → List Nat → List TCC × List AntagonismLogEntry
  | [], _ => ([], [])
  | (i, t1) :: rest, skip =>
    if i ∈ skip then caOuter rest skip
    else
      match caInner t1 rest skip with
      | (found, skip2, newLogs) =>
        let kept :=
          match found with
          | some (_, t2) =>
            let winner := if t2.confidence ≤ t1.confidence then t1 else t2
            { winner with
              evidence_scenes := sortedUnion t1.evidence_scenes t2.evidence_scenes }
          | none => t1
        match caOuter rest skip2 with
        | (tailTccs, tailLogs) => (kept :: tailTccs, newLogs ++ tailLogs)

/-- check_antagonist_mutual_exclusion from prompts/schemas.py: merge
antagonist-mirror pairs, keeping the higher-confidence thread (the anchor on
ties) with the sorted union of both evidence-scene sets. -/
def check_antagonist_mutual_exclusion (tccs : List TCC) :
    List TCC × List AntagonismLogEntry :=
  if tccs.length ≤ 1 then (tccs, [])
  else caOuter tccs.enum []

/-- Drop the first n characters of a string. -/
def strDrop (s : String) (n : Nat) : String := String.mk (s.data.drop n)

/-- Drop the last n characters of a string. -/
def strDropRight (s : String) (n : Nat) : String :=
  String.mk (s.data.take (s.data.length - n))

/-- Whether s starts with the given character list. -/
def strStartsWithChars (s : String) (p : List Char) : Bool := p.isPrefixOf s.data

/-- Whether s ends with the given character list. -/
def strEndsWithChars (s : String) (p : List Char) : Bool := p.isSuffixOf s.data

/-- The characters of a triple-backtick fence. -/
def fenceChars : List Char := ['\x60', '\x60', '\x60']

/-- The characters of a json-tagged opening fence. -/
def fenceJsonChars : List Char := ['\x60', '\x60', '\x60', 'j', 's', 'o', 'n']

/-- Markdown-fence removal step of clean_json_response: strip, drop a leading
(possibly json-tagged) fence and a trailing fence, strip again. -/
def stripFences (input : String) : String :=
  let content := pyStrip input
  let content :=
    if strStartsWithChars content fenceJsonChars then strDrop content 7
    else if strStartsWithChars content fenceChars then strDrop content 3
    else content
  let content := if strEndsWithChars content fenceChars then strDropRight content 3 else content
  pyStrip content

/-- Leading-prose removal step of clean_json_response: when some opening brace
or bracket occurs at a positive index, drop everything before the earliest
opening brace or bracket. -/
def trimLeadingProse (l : List Char) : List Char :=
  let fb := l.findIdx? (fun c => c = '{')
  let fk := l.findIdx? (fun c => c = '[')
  let braceLater := match fb with | some i => decide (0 < i) | none => false
  let bracketLater := match fk with | some i => decide (0 < i) | none => false
  if braceLater || bracketLater then
    let sp : Nat :=
      match fb, fk with
      | some i, some j => min i j
      | some i, none => i
      | none, some j => j
      | none, none => 0
    if 0 < sp then l.drop sp else l
  else l

/-- All preprocessing of clean_json_response before the balanced scan:
strip, fence removal, strip, leading-prose removal. -/
def sanitizePrep (input : String) : String :=
  String.mk (trimLeadingProse (stripFences input).data)

/-- The single linear scan of clean_json_response: track backslash escapes,
string-literal state and bracket depth (any opener increments, any closer
decrements a nonempty stack), returning the index at which the depth returns
to zero, if that ever happens. -/
def scanBalanced : List Char → Nat → Bool → Bool → Nat → Option Nat
  | [], _, _, _, _ => none
  | c :: rest, i, esc, inStr, depth =>
    if esc then scanBalanced rest (i + 1) false inStr depth
    else if c = '\\' then scanBalanced rest (i + 1) true inStr depth
    else if c = '"' then scanBalanced rest (i + 1) false (!inStr) depth
    else if !inStr && (c = '{' || c = '[') then scanBalanced rest (i + 1) false inStr (depth + 1)
    else if !inStr && (c = '}' || c = ']') then
      if depth = 0 then scanBalanced rest (i + 1) false inStr 0
      else if depth = 1 then some i
      else scanBalanced rest (i + 1) false inStr (depth - 1)
    else scanBalanced rest (i + 1) false inStr depth

/-- Whether the preprocessed content starts with an opening brace or bracket. -/
def startsWithOpener (s : String) : Bool :=
  match s.data with
  | c :: _ => c = '{' || c = '['
  | [] => false

/-- clean_json_response from src/pipeline.py: preprocess, then cut at the
position where bracket depth first returns to zero; if there is no opening
bracket or the depth never returns to zero, return the preprocessed content. -/
def clean_json_response (input : String) : String :=
  let content := sanitizePrep input
  if startsWithOpener content then
    match scanBalanced content.data 0 false false 0 with
    | some i => String.mk (content.data.take (i + 1))
    | none => content
  else content

/-- The placeholder values normalize_change_type coerces to the no-op update. -/
def noneWords : List String := ["none", "skip", "no_change", "n/a", "na", "null", ""]

/-- The canonical change-type actions of the Literal annotation on
ModificationLogEntry.change_type. -/
def canonicalActions : List String := ["add", "append", "update", "remove", "delete"]

/-- normalize_change_type from prompts/schemas.py: placeholders become update,
values containing remove, delete or clear become remove, canonical actions are
passed through lowercased, and anything else is returned unchanged. -/
def normalize_change_type : Option String → Option String
  | none => none
  | some v =>
    let vl := pyStrip (strLower v)
    if vl ∈ noneWords then some "update"
    else if strContainsSub vl "remove" || strContainsSub vl "delete"
         || strContainsSub vl "clear" then some "remove"
    else if vl ∈ canonicalActions then some vl
    else some v

/-- The Literal enum check pydantic applies to change_type after
normalization: absent values pass, present values must be canonical. -/
def changeTypeAccepted : Option String → Bool
  | none => true
  | some v => decide (v ∈ canonicalActions)

/-- Errors for one scene's setup_for list in validate_setup_payoff_integrity. -/
def setupForErrors (scenes : List Scene) (sc : Scene) : List String :=
  sc.setup_payoff.setup_for.flatMap (fun setupId =>
    match scenes.find? (fun s => s.scene_id = setupId) with
    | none =>
      ["Scene " ++ sc.scene_id ++ " references non-existent scene "
        ++ setupId ++ " in setup_for"]
    | some target =>
      if sc.scene_id ∈ target.setup_payoff.payoff_from then []
      else
        ["Scene " ++ sc.scene_id ++ " sets up for " ++ setupId ++ ", but "
          ++ setupId ++ " doesn" ++ String.singleton (Char.ofNat 39) ++ "t have "
          ++ sc.scene_id ++ " in payoff_from"])

/-- Errors for one scene's payoff_from list in validate_setup_payoff_integrity. -/
def payoffFromErrors (scenes : List Scene) (sc : Scene) : List String :=
  sc.setup_payoff.payoff_from.flatMap (fun payoffId =>
    if scenes.any (fun s => s.scene_id = payoffId) then []
    else
      ["Scene " ++ sc.scene_id ++ " references non-existent scene "
        ++ payoffId ++ " in payoff_from"])

/-- validate_setup_payoff_integrity from prompts/schemas.py: the deterministic
bidirectional setup/payoff integrity scan whose error list feeds Stage 3. -/
def validate_setup_payoff_integrity (script : Script) : List String :=
  script.scenes.flatMap (fun sc =>
    setupForErrors script.scenes sc ++ payoffFromErrors script.scenes sc)

/-- The demonstration script constructed in pipeline.py's main block: two
scenes with a reciprocal setup/payoff link. -/
def demoScript : Script :=
  { scenes :=
    [{ scene_id := "S01"
       scene_mission := "建立角色关系和冲突"
       key_events := ["事件1", "事件2"]
       relation_change := []
       setup_payoff := { setup_for := ["S02"], payoff_from := [] } },
     { scene_id := "S02"
       scene_mission := "推进冲突发展"
       key_events := ["事件3"]
       relation_change := []
       setup_payoff := { setup_for := [], payoff_from := ["S01"] } }] }

/-- A row of the analysis_cache table (src/db/models.py CREATE_TABLE_SQL);
JSON payloads are kept as opaque optional strings, timestamps as abstract
instants. The autoincrement id column is not modelled. -/
structure CacheRow where
  content_hash : String
  script_name : String
  provider : String
  model : String
  parsed_script : Option String
  stage1_result : Option String
  stage2_result : Option String
  stage3_result : Option String
  scene_count : Option Nat
  tcc_count : Option Nat
  processing_time : Option ℚ
  api_calls : Option Nat
  created_at : Nat
  expires_at : Option Nat
deriving Repr, DecidableEq

/-- The backing store: cache rows plus the persisted hit/miss counters. -/
structure CacheDb where
  rows : List CacheRow
  hits : Nat
  misses : Nat
deriving Repr, DecidableEq

/-- Whether a row carries the given (content_hash, provider, model) key. -/
def rowKeyMatches (h p m : String) (r : CacheRow) : Bool :=
  r.content_hash = h && r.provider = p && r.model = m

/-- The SQL expiry filter of CacheManager.get: expires_at IS NULL OR
expires_at > now. -/
def rowUnexpired (now : Nat) (r : CacheRow) : Bool :=
  match r.expires_at with
  | none => true
  | some e => decide (now < e)

/-- Whether all three stage payloads of a row are present. -/
def rowComplete (r : CacheRow) : Bool :=
  r.stage1_result.isSome && r.stage2_result.isSome && r.stage3_result.isSome

/-- The SELECT of CacheManager.get: the first row matching the key that is
unexpired at the probe instant. -/
def cacheSelect (db : CacheDb) (now : Nat) (h p m : String) : Option CacheRow :=
  db.rows.find? (fun r => rowKeyMatches h p m r && rowUnexpired now r)

/-- CacheManager.get from src/db/cache.py: return the first matching
unexpired row when one exists (complete or not), bumping the hit counter for
complete rows and the miss counter otherwise; return none and bump the miss
counter when no row matches. -/
def CacheManager.get (db : CacheDb) (now : Nat) (h p m : String) :
    Option CacheRow × CacheDb :=
  match cacheSelect db now h p m with
  | some entry =>
    if rowComplete entry then (some entry, { db with hits := db.hits + 1 })
    else (some entry, { db with misses := db.misses + 1 })
  | none => (none, { db with misses := db.misses + 1 })

/-- The non-key payload of a CacheManager.set call. -/
structure SetPayload where
  script_name : String
  parsed_script : Option String
  stage1_result : Option String
  stage2_result : Option String
  stage3_result : Option String
  scene_count : Option Nat
  tcc_count : Option Nat
  processing_time : Option ℚ
  api_calls : Option Nat
deriving Repr, DecidableEq

/-- The row a CacheManager.set call writes: key fields, payload fields, and
created_at/expires_at derived from the call instant and the expiry window. -/
def setRow (h p m : String) (pl : SetPayload) (now expiryDays : Nat) : CacheRow :=
  { content_hash := h
    script_name := pl.script_name
    provider := p
    model := m
    parsed_script := pl.parsed_script
    stage1_result := pl.stage1_result
    stage2_result := pl.stage2_result
    stage3_result := pl.stage3_result
    scene_count := pl.scene_count
    tcc_count := pl.tcc_count
    processing_time := pl.processing_time
    api_calls := pl.api_calls
    created_at := now
    expires_at := some (now + expiryDays) }

/-- INSERT ... ON CONFLICT(content_hash, provider, model) DO UPDATE over the
row list: update every non-key column of the first conflicting row (resetting
created_at and expires_at), or append a fresh row when no conflict exists. -/
def upsertRows (nr : CacheRow) : List CacheRow → List CacheRow
  | [] => [nr]
  | r :: rs =>
    if rowKeyMatches nr.content_hash nr.provider nr.model r then
      { r with
        script_name := nr.script_name
        parsed_script := nr.parsed_script
        stage1_result := nr.stage1_result
        stage2_result := nr.stage2_result
        stage3_result := nr.stage3_result
        scene_count := nr.scene_count
        tcc_count := nr.tcc_count
        processing_time := nr.processing_time
        api_calls := nr.api_calls
        created_at := nr.created_at
        expires_at := nr.expires_at } :: rs
    else r :: upsertRows nr rs

/-- CacheManager.set from src/db/cache.py: the single-statement upsert. -/
def CacheManager.set (db : CacheDb) (now : Nat) (h p m : String)
    (pl : SetPayload) (expiryDays : Nat) : CacheDb :=
  { db with rows := upsertRows (setRow h p m pl now expiryDays) db.rows }

/-- Number of rows in a list carrying the given key (the UNIQUE constraint of
CREATE_TABLE_SQL keeps this at most 1 in any reachable store). -/
def keyCount (h p m : String) (rows : List CacheRow) : Nat :=
  (rows.filter (rowKeyMatches h p m)).length

/-- Round a rational to the nearest integer, ties to even (the rounding of
CPython's fixed-point formatting, on the idealized real value). -/
def roundHalfEven (x : ℚ) : ℤ :=
  let f := Rat.floor x
  let frac := x - (f : ℚ)
  if frac < 1/2 then f
  else if (1/2 : ℚ) < frac then f + 1
  else if f % 2 = 0 then f else f + 1

/-- Python format spec .1% applied to a nonnegative ratio: the value times
100 rounded half-to-even to one decimal digit, with a percent sign. -/
def pctRepr (r : ℚ) : String :=
  let n := (roundHalfEven (r * 1000)).toNat
  Nat.repr (n / 10) ++ "." ++ Nat.repr (n % 10) ++ "%"

/-- The warning string appended by validate_tcc_independence for one
high-overlap pair (associated to keep the fixed head literal explicit). -/
def independence_warning (t1 t2 : TCC) (r : ℚ) : String :=
  "High overlap between " ++
    (t1.tcc_id ++ (" and " ++ (t2.tcc_id ++ (" (" ++ (pctRepr r ++
      (")" ++ (". May be mirror conflicts. Check: " ++
        (String.singleton (Char.ofNat 39) ++ (t1.super_objective ++
          (String.singleton (Char.ofNat 39) ++ (" vs " ++
            (String.singleton (Char.ofNat 39) ++ (t2.super_objective ++
              String.singleton (Char.ofNat 39))))))))))))))

/-- Inner loop of validate_tcc_independence: warnings of one anchor against
the TCCs after it (overlap ratio strictly above 0.8, minimum denominator). -/
def tccIndepWarnAgainst (t1 : TCC) (rest : List TCC) : List String :=
  rest.flatMap (fun t2 =>
    let r := overlapFracMin t1.evidence_scenes t2.evidence_scenes
    if 4/5 < r then [independence_warning t1 t2 r] else [])

/-- validate_tcc_independence from prompts/schemas.py: one warning per
ordered pair of TCCs whose evidence overlap ratio exceeds 0.8. -/
def validate_tcc_independence : List TCC → List String
  | [] => []
  | t :: ts => tccIndepWarnAgainst t ts ++ validate_tcc_independence ts

/-- Whether an error-list entry was appended by a stage's except handler
(every failure entry carries one of these three fixed prefixes; the
independence warnings of the success path carry a different head). -/
def isFailureEntry (s : String) : Bool :=
  strStartsWithChars s "Discoverer error: ".data
  || strStartsWithChars s "Auditor error: ".data
  || strStartsWithChars s "Modifier error: ".data

/-- One stage attempt's outcome at the model/sanitize/validate boundary:
a typed output, or the message of the exception the stage body caught. -/
inductive Outcome (σ : Type) where
  | success (out : σ)
  | failure (msg : String)
deriving Repr, DecidableEq

/-- The LangGraph PipelineState of src/pipeline.py, abstracted over the three
typed stage outputs (messages are not modelled). -/
structure PipeState (α β γ : Type) where
  discoverer_output : Option α
  auditor_output : Option β
  modifier_output : Option γ
  current_stage : String
  errors : List String
  retry_count : Nat
deriving Repr, DecidableEq

/-- DiscovererActor.call: on success compute the independence warnings and
run the 0.9-threshold auto-merge on the validated TCCs; when the auto-merge
produced merge logs, record the merged output, otherwise record the original
output and extend the run's error list with the warnings (when any); either
way mark the stage completed. On a caught failure append one error entry,
mark the stage failed and increment the shared retry counter. -/
def discovererStep (st : PipeState DiscovererOutput β γ)
    (o : Outcome DiscovererOutput) : PipeState DiscovererOutput β γ :=
  match o with
  | .success out =>
    let warnings := validate_tcc_independence out.tccs
    let mm := merge_mirror_tccs out.tccs (9/10)
    if mm.2.isEmpty then
      { st with
        errors := if warnings.isEmpty then st.errors else st.errors ++ warnings,
        discoverer_output := some out,
        current_stage := "discoverer_completed" }
    else
      { st with
        discoverer_output := some { out with tccs := mm.1 },
        current_stage := "discoverer_completed" }
  | .failure msg =>
    { st with errors := st.errors ++ ["Discoverer error: " ++ msg],
              current_stage := "discoverer_failed",
              retry_count := st.retry_count + 1 }

/-- AuditorActor.call, with the same success/failure bookkeeping. -/
def auditorStep (st : PipeState α β γ) (o : Outcome β) : PipeState α β γ :=
  match o with
  | .success out =>
    { st with auditor_output := some out, current_stage := "auditor_completed" }
  | .failure msg =>
    { st with errors := st.errors ++ ["Auditor error: " ++ msg],
              current_stage := "auditor_failed",
              retry_count := st.retry_count + 1 }

/-- ModifierActor.call, with the same success/failure bookkeeping. -/
def modifierStep (st : PipeState α β γ) (o : Outcome γ) : PipeState α β γ :=
  match o with
  | .success out =>
    { st with modifier_output := some out, current_stage := "modifier_completed" }
  | .failure msg =>
    { st with errors := st.errors ++ ["Modifier error: " ++ msg],
              current_stage := "modifier_failed",
              retry_count := st.retry_count + 1 }

/-- The targets the conditional-edge functions can route to (END is endRun). -/
inductive Next where
  | discoverer
  | auditor
  | modifier
  | endRun
deriving Repr, DecidableEq

/-- should_continue_to_auditor from src/pipeline.py. -/
def should_continue_to_auditor (st : PipeState α β γ) : Next :=
  if st.current_stage = "discoverer_completed" then .auditor
  else if st.retry_count < 3 then .discoverer
  else .endRun

/-- should_continue_to_modifier from src/pipeline.py. -/
def should_continue_to_modifier (st : PipeState α β γ) : Next :=
  if st.current_stage = "auditor_completed" then .modifier
  else if st.retry_count < 3 then .auditor
  else .endRun

/-- should_end from src/pipeline.py. -/
def should_end (st : PipeState α β γ) : Next :=
  if st.current_stage = "modifier_completed" then .endRun
  else if st.retry_count < 3 then .modifier
  else .endRun

/-- The three stage nodes of the compiled graph. -/
inductive Node where
  | discoverer
  | auditor
  | modifier
deriving Repr, DecidableEq

/-- Termination measure for the graph loop: every transition strictly
decreases it, so a fuel bound of the initial measure suffices. -/
def pipeMeasure (node : Node) (st : PipeState α β γ) : Nat :=
  (3 - st.retry_count) * 4 + (match node with
    | .discoverer => 3
    | .auditor => 2
    | .modifier => 1)

/-- The graph execution loop: invoke the node's actor on the next oracle
outcome for that stage, then follow the node's conditional edge. The three
oracles give each stage attempt's outcome; fuel only bounds the recursion
and never runs out from the initial measure. -/
def runFrom (oD : Nat → Outcome DiscovererOutput) (oA : Nat → Outcome β)
    (oM : Nat → Outcome γ) :
    Nat → Node → PipeState DiscovererOutput β γ → Nat → Nat → Nat →
      PipeState DiscovererOutput β γ
  | 0, _, st, _, _, _ => st
  | fuel + 1, .discoverer, st, nD, nA, nM =>
    let st2 := discovererStep st (oD nD)
    match should_continue_to_auditor st2 with
    | .auditor => runFrom oD oA oM fuel .auditor st2 (nD + 1) nA nM
    | .discoverer => runFrom oD oA oM fuel .discoverer st2 (nD + 1) nA nM
    | _ => st2
  | fuel + 1, .auditor, st, nD, nA, nM =>
    let st2 := auditorStep st (oA nA)
    match should_continue_to_modifier st2 with
    | .modifier => runFrom oD oA oM fuel .modifier st2 nD (nA + 1) nM
    | .auditor => runFrom oD oA oM fuel .auditor st2 nD (nA + 1) nM
    | _ => st2
  | fuel + 1, .modifier, st, nD, nA, nM =>
    let st2 := modifierStep st (oM nM)
    match should_end st2 with
    | .modifier => runFrom oD oA oM fuel .modifier st2 nD nA (nM + 1)
    | _ => st2

/-- The initial_state dictionary of run_pipeline. -/
def initState : PipeState α β γ :=
  { discoverer_output := none
    auditor_output := none
    modifier_output := none
    current_stage := "initialized"
    errors := []
    retry_count := 0 }

/-- run_pipeline from src/pipeline.py: drive the graph from the start edge;
it always returns the final state, never raising. Fuel 15 is the initial
measure, so the loop always reaches a conditional END edge. -/
def run_pipeline (oD : Nat → Outcome DiscovererOutput) (oA : Nat → Outcome β)
    (oM : Nat → Outcome γ) : PipeState DiscovererOutput β γ :=
  runFrom oD oA oM 15 .discoverer initState 0 0 0

/-- The final-state guarantees of a pipeline run: one failure-tagged error
entry per failure (the successful discoverer path may additionally append
independence warnings, which carry a different head), a bounded shared retry
counter, termination either completed or failed with the counter exhausted,
and preservation of the outputs the completed stages produced. -/
def goodFinal (st : PipeState α β γ) : Prop :=
  (st.errors.filter isFailureEntry).length = st.retry_count ∧
  st.retry_count ≤ 3 ∧
  (st.current_stage = "modifier_completed" ∨
    (st.retry_count = 3 ∧
      (st.current_stage = "discoverer_failed" ∨ st.current_stage = "auditor_failed" ∨
       st.current_stage = "modifier_failed"))) ∧
  ((st.current_stage = "auditor_failed" ∨ st.current_stage = "modifier_failed" ∨
    st.current_stage = "modifier_completed") → st.discoverer_output.isSome = true) ∧
  ((st.current_stage = "modifier_failed" ∨ st.current_stage = "modifier_completed") →
    st.auditor_output.isSome = true) ∧
  (st.current_stage = "modifier_completed" → st.modifier_output.isSome = true)

/-- Fixture scene for the evidence-verification witness. -/
def scW : Scene :=
  { scene_id := "S01"
    scene_mission := "introduce the rivalry"
    key_events := ["find the treasure"]
    relation_change := []
    setup_payoff := { setup_for := [], payoff_from := [] } }

/-- Fixture TCC for the evidence-verification witness: scene S01 shares the
keywords find and treasure with its objective, scene S02 does not exist. -/
def tW : TCC :=
  { tcc_id := "TCC_07"
    super_objective := "find treasure map"
    core_conflict_type := "internal"
    evidence_scenes := ["S01", "S02"]
    confidence := 9/10 }

/-- Fixture cache row: matching key, unexpired, stage-3 payload missing. -/
def rowW : CacheRow :=
  { content_hash := "h"
    script_name := "n"
    provider := "p"
    model := "m"
    parsed_script := none
    stage1_result := some "s1"
    stage2_result := some "s2"
    stage3_result := none
    scene_count := some 5
    tcc_count := none
    processing_time := none
    api_calls := none
    created_at := 0
    expires_at := none }

/-- Fixture store holding only the incomplete row. -/
def dbW : CacheDb := { rows := [rowW], hits := 0, misses := 0 }

/-- Fixture payloads for the upsert witness: two calls differing in
scene_count. -/
def plW1 : SetPayload :=
  { script_name := "a"
    parsed_script := none
    stage1_result := some "x1"
    stage2_result := some "x2"
    stage3_result := some "x3"
    scene_count := some 3
    tcc_count := none
    processing_time := none
    api_calls := none }

/-- Second upsert-witness payload. -/
def plW2 : SetPayload := { plW1 with scene_count := some 7 }

/-- Counterexample thread A: ten evidence scenes, opposition word stop. -/
def cxA : TCC :=
  { tcc_id := "TCC_01"
    super_objective := "stop the wedding plan now"
    core_conflict_type := "interpersonal"
    evidence_scenes := ["S01", "S02", "S03", "S04", "S05", "S06", "S07", "S08",
                        "S09", "S10"]
    confidence := 9/10 }

/-- Counterexample thread B: two evidence scenes, both shared with cxA, and
the matching opposition word achieve. -/
def cxB : TCC :=
  { tcc_id := "TCC_02"
    super_objective := "achieve the wedding plan goal"
    core_conflict_type := "interpersonal"
    evidence_scenes := ["S01", "S02"]
    confidence := 8/10 }

/-- Antagonist-merge witness thread A (lower confidence). -/
def wmA : TCC :=
  { tcc_id := "TCC_03"
    super_objective := "stop the merger deal entirely"
    core_conflict_type := "interpersonal"
    evidence_scenes := ["S01", "S02", "S03", "S04"]
    confidence := 7/10 }

/-- Antagonist-merge witness thread B (higher confidence): intersection 4 of
maximum length 5 gives ratio 0.8. -/
def wmB : TCC :=
  { tcc_id := "TCC_04"
    super_objective := "achieve the merger deal fast"
    core_conflict_type := "interpersonal"
    evidence_scenes := ["S01", "S02", "S03", "S04", "S05"]
    confidence := 9/10 }

/-- Auto-merge witness thread A: the Scenario-A evidence list of four scenes,
higher confidence. -/
def mwA : TCC :=
  { tcc_id := "TCC_05"
    super_objective := "win the city council election"
    core_conflict_type := "interpersonal"
    evidence_scenes := ["S01", "S02", "S03", "S04"]
    confidence := 95/100 }

/-- Auto-merge witness thread B: the Scenario-A evidence sublist of three
scenes, lower confidence; the overlap ratio is 3/3 = 1. -/
def mwB : TCC :=
  { tcc_id := "TCC_06"
    super_objective := "expose the corrupt council member"
    core_conflict_type := "ideological"
    evidence_scenes := ["S01", "S02", "S03"]
    confidence := 85/100 }

/-- Fixture metadata for the Discoverer-bounds witness. -/
def mdW : DiscovererMetadata :=
  { total_scenes_analyzed := 50
    primary_evidence_available := true
    fallback_mode := false
    fallback_reason := none }

/-- Claim C10: a validated Stage-1 output carries between 1 and 5 conflict
threads inclusive; an empty thread list or one with more than 5 entries is
rejected by validation. -/
theorem c10_tcc_count_bounds (o : DiscovererOutput) :
    (discoverer_output_valid o = true → 1 ≤ o.tccs.length ∧ o.tccs.length ≤ 5) ∧
    (o.tccs.length = 0 ∨ 5 < o.tccs.length → discoverer_output_valid o = false) := by
  have hb : discoverer_output_valid o = true →
      1 ≤ o.tccs.length ∧ o.tccs.length ≤ 5 := by
    intro h
    unfold discoverer_output_valid at h
    simp only [Bool.and_eq_true, decide_eq_true_eq] at h
    exact ⟨h.1.1.1.1, h.1.1.1.2⟩
  refine ⟨hb, ?_⟩
  intro h
  cases hval : discoverer_output_valid o with
  | false => rfl
  | true =>
    have hbb := hb hval
    rcases h with h | h <;> omega

/-- Witness for C10: validation rejects the empty thread list. -/
theorem c10_tcc_count_bounds_witness :
    discoverer_output_valid { tccs := [], metadata := mdW } = false :=
  (c10_tcc_count_bounds { tccs := [], metadata := mdW }).2 (Or.inl rfl)

/-- Counterexample to claim C7 as stated: the input " abc" contains no
opening brace or bracket, yet the sanitizer returns "abc", not the input
unchanged (surrounding whitespace is stripped first). -/
theorem c7_not_identity :
    (" abc").data.all (fun c => !(c = '{' || c = '[')) = true ∧
    clean_json_response " abc" = "abc" ∧ (" abc" : String) ≠ "abc" := by
  refine ⟨by decide, by decide, by decide⟩

/-- Claim C7 (amended): when the preprocessed remainder (input stripped of
surrounding whitespace, markdown fences and leading prose) has no opening
bracket at its head, or the bracket-depth scan never returns to depth zero,
the sanitizer returns that preprocessed remainder and raises no exception. -/
theorem c7_sanitizer_returns_preprocessed (s : String) :
    startsWithOpener (sanitizePrep s) = false ∨
      scanBalanced (sanitizePrep s).data 0 false false 0 = none →
    clean_json_response s = sanitizePrep s := by
  intro h
  unfold clean_json_response
  rcases h with h | h
  · simp [h]
  · cases hs : startsWithOpener (sanitizePrep s) <;> simp [hs, h]

/-- Witness for C7 (amended): at input " abc" the remainder "abc" has no
opening bracket and is returned as-is. -/
theorem c7_sanitizer_returns_preprocessed_witness :
    clean_json_response " abc" = sanitizePrep " abc" :=
  c7_sanitizer_returns_preprocessed " abc" (Or.inl (by decide))

/-- Counterexample to claim C8 as stated: the unrecognized non-empty value
"modify" is not coerced to "update"; it is returned unchanged and is then
rejected by the change-type enum check. -/
theorem c8_unrecognized_not_coerced :
    normalize_change_type (some "modify") = some "modify" ∧
    changeTypeAccepted (normalize_change_type (some "modify")) = false := by
  refine ⟨by decide, by decide⟩

/-- Claim C8 (amended): the placeholder values none, skip, no_change, n/a,
na, null and the empty string are coerced to "update"; values containing
remove, delete or clear become "remove"; canonical actions pass through
lowercased; every other value is returned unchanged and then fails the enum
check. -/
theorem c8_change_type_normalization (v : String) :
    (pyStrip (strLower v) ∈ noneWords →
      normalize_change_type (some v) = some "update") ∧
    (pyStrip (strLower v) ∉ noneWords →
      (strContainsSub (pyStrip (strLower v)) "remove"
        || strContainsSub (pyStrip (strLower v)) "delete"
        || strContainsSub (pyStrip (strLower v)) "clear") = true →
      normalize_change_type (some v) = some "remove") ∧
    (pyStrip (strLower v) ∉ noneWords →
      (strContainsSub (pyStrip (strLower v)) "remove"
        || strContainsSub (pyStrip (strLower v)) "delete"
        || strContainsSub (pyStrip (strLower v)) "clear") = false →
      pyStrip (strLower v) ∈ canonicalActions →
      normalize_change_type (some v) = some (pyStrip (strLower v))) ∧
    (pyStrip (strLower v) ∉ noneWords →
      (strContainsSub (pyStrip (strLower v)) "remove"
        || strContainsSub (pyStrip (strLower v)) "delete"
        || strContainsSub (pyStrip (strLower v)) "clear") = false →
      pyStrip (strLower v) ∉ canonicalActions →
      normalize_change_type (some v) = some v ∧
        changeTypeAccepted (some v) = false) ∧
    normalize_change_type none = none := by
  refine ⟨?_, ?_, ?_, ?_, rfl⟩
  · intro h1
    simp [normalize_change_type, h1]
  · intro h1 h2
    simp [normalize_change_type, h1, h2]
  · intro h1 h2 h3
    simp [normalize_change_type, h1, h2, h3]
  · intro h1 h2 h3
    have hv : v ∉ canonicalActions := by
      intro hv
      apply h3
      have hfix : pyStrip (strLower v) = v := by
        simp only [canonicalActions, List.mem_cons, List.not_mem_nil, or_false] at hv
        rcases hv with rfl | rfl | rfl | rfl | rfl <;> decide
      rw [hfix]; exact hv
    constructor
    · simp [normalize_change_type, h1, h2, h3]
    · simp [changeTypeAccepted, hv]

/-- Witness for C8 (amended): "Cleared" contains clear and becomes remove. -/
theorem c8_change_type_normalization_witness :
    normalize_change_type (some "Cleared") = some "remove" :=
  (c8_change_type_normalization "Cleared").2.1 (by decide) (by decide)

/-- Claim C2: the deterministic setup/payoff pre-check of Stage 3 finds no
issues on the reciprocally linked demonstration script from pipeline.py, so
the zero-issue branch of ModifierActor is reached there (where the source
references the never-imported name ModificationValidation and fails instead
of synthesizing the zero-count output). -/
theorem c2_zero_issue_precheck_on_demo :
    validate_setup_payoff_integrity demoScript = [] := by decide

/-- Counterexample to claim C1 as stated: on a store holding a matching
unexpired row whose stage-3 payload is null, get still returns that entry to
the caller (it only books the probe as a miss in the counters). -/
theorem c1_incomplete_row_returned :
    rowKeyMatches "h" "p" "m" rowW = true ∧
    rowUnexpired 0 rowW = true ∧
    rowW.stage3_result = none ∧
    (CacheManager.get dbW 0 "h" "p" "m").1 = some rowW := by
  refine ⟨by decide, rfl, rfl, by decide⟩

/-- Claim C1 (amended): get returns the first matching unexpired row whenever
one exists, regardless of payload completeness; completeness only selects the
counter (hits when all three stage payloads are present, misses otherwise);
no entry is returned only when no matching unexpired row exists, which also
books a miss. -/
theorem c1_get_returns_any_unexpired_row (db : CacheDb) (now : Nat)
    (h p m : String) :
    (∀ e, cacheSelect db now h p m = some e →
      (CacheManager.get db now h p m).1 = some e ∧
      (rowComplete e = true →
        (CacheManager.get db now h p m).2 = { db with hits := db.hits + 1 }) ∧
      (rowComplete e = false →
        (CacheManager.get db now h p m).2 = { db with misses := db.misses + 1 })) ∧
    (cacheSelect db now h p m = none →
      (CacheManager.get db now h p m).1 = none ∧
      (CacheManager.get db now h p m).2 = { db with misses := db.misses + 1 }) := by
  constructor
  · intro e he
    cases hc : rowComplete e <;>
      simp [CacheManager.get, he, hc]
  · intro he
    simp [CacheManager.get, he]

/-- Witness for C1 (amended): the incomplete fixture row is returned and the
probe is booked as a miss. -/
theorem c1_get_returns_any_unexpired_row_witness :
    (CacheManager.get dbW 0 "h" "p" "m").1 = some rowW ∧
    (CacheManager.get dbW 0 "h" "p" "m").2.misses = dbW.misses + 1 := by
  have hmain := (c1_get_returns_any_unexpired_row dbW 0 "h" "p" "m").1 rowW (by decide)
  refine ⟨hmain.1, ?_⟩
  rw [hmain.2.2 (by decide)]

/-- Claim C4: evidence reverse-verification keeps a thread unchanged in
confidence when at least 2 evidence scenes pass the keyword check, lowers
its confidence to max(0.5, c - 0.2) when exactly 1 passes, lowers it to
max(0.4, c - 0.3) when none pass, and never deletes a thread from the
returned list. -/
theorem c4_evidence_verification_penalties (scenes : List Scene) (t : TCC)
    (tccs : List TCC) (script : Script) :
    (2 ≤ (t.evidence_scenes.filter (scenePasses scenes t)).length →
      (validateTccOne scenes t).confidence = t.confidence) ∧
    ((t.evidence_scenes.filter (scenePasses scenes t)).length = 1 →
      (validateTccOne scenes t).confidence = max (1/2) (t.confidence - 1/5)) ∧
    ((t.evidence_scenes.filter (scenePasses scenes t)).length = 0 →
      (validateTccOne scenes t).confidence = max (2/5) (t.confidence - 3/10)) ∧
    (validateTccOne scenes t).tcc_id = t.tcc_id ∧
    (validate_tcc_scene_evidence tccs script).1.length = tccs.length ∧
    (validate_tcc_scene_evidence tccs script).1 =
      tccs.map (validateTccOne script.scenes) := by
  refine ⟨?_, ?_, ?_, ?_, ?_, rfl⟩
  · intro h
    simp [validateTccOne, h]
  · intro h
    simp [validateTccOne, h]
  · intro h
    simp [validateTccOne, h]
  · unfold validateTccOne
    simp only []
    split <;> try rfl
    split <;> rfl
  · simp [validate_tcc_scene_evidence]

/-- Witness for C4: thread tW has exactly one verified evidence scene among
[scW], so its confidence 0.9 becomes max(0.5, 0.7) = 0.7. -/
theorem c4_evidence_verification_penalties_witness :
    (validateTccOne [scW] tW).confidence = max (1/2) (tW.confidence - 1/5) :=
  (c4_evidence_verification_penalties [scW] tW [] { scenes := [] }).2.1 (by decide)

/-- Claim C6: a pair of threads whose overlap ratio (minimum-length
denominator) reaches 0.9 is collapsed by the auto-merge into the single
higher-confidence member (the anchor on ties), and the merge log records the
measured ratio. -/
theorem c6_automerge_pair (t1 t2 : TCC) :
    (9/10 : ℚ) ≤ overlapFracMin t1.evidence_scenes t2.evidence_scenes →
    (merge_mirror_tccs [t1, t2] (9/10)).1
        = [if t1.confidence < t2.confidence then t2 else t1] ∧
    (merge_mirror_tccs [t1, t2] (9/10)).2
        = [MergeLogEntry.merged t2.tcc_id t1.tcc_id
             (overlapFracMin t1.evidence_scenes t2.evidence_scenes),
           MergeLogEntry.kept
             (if t1.confidence < t2.confidence then t2 else t1).tcc_id
             (if t1.confidence < t2.confidence then t2 else t1).confidence] := by
  intro hr
  unfold merge_mirror_tccs
  simp only [List.length_cons, List.length_nil, List.enum]
  norm_num
  unfold mmOuter mmInner
  simp [hr, pyMaxConf, mmOuter, mmInner]

/-- Witness for C6: the Scenario-A pair with evidence lists S01-S04 and
S01-S03 (ratio 1.0) collapses to the single higher-confidence thread mwA. -/
theorem c6_automerge_pair_witness :
    (merge_mirror_tccs [mwA, mwB] (9/10)).1 = [mwA] := by
  have hr : (9/10 : ℚ) ≤ overlapFracMin mwA.evidence_scenes mwB.evidence_scenes := by
    have hI : evidenceInter mwA.evidence_scenes mwB.evidence_scenes = 3 := by decide
    have hL : (min mwA.evidence_scenes.length mwB.evidence_scenes.length : Nat) = 3 := by
      decide
    unfold overlapFracMin
    rw [hI, hL]
    norm_num
  have h := (c6_automerge_pair mwA mwB hr).1
  rw [h, if_neg]
  norm_num [mwA, mwB]

/-- Counterexample to claim C5 as stated: cxA and cxB have overlap ratio 1.0
under the minimum-length denominator and opposition words stop and achieve
on opposite sides, yet the antagonist-mirror merge leaves both threads
unmerged, because the code divides by the maximum length (ratio 0.2). -/
theorem c5_min_denominator_refuted :
    (4/5 : ℚ) ≤ overlapFracMin cxA.evidence_scenes cxB.evidence_scenes ∧
    isOpposition (strLower cxA.super_objective) (strLower cxB.super_objective)
      = true ∧
    (check_antagonist_mutual_exclusion [cxA, cxB]).1 = [cxA, cxB] := by
  have hmax : overlapFracMax cxA.evidence_scenes cxB.evidence_scenes = 2/10 := by
    have hI : evidenceInter cxA.evidence_scenes cxB.evidence_scenes = 2 := by decide
    have hL : (max cxA.evidence_scenes.length cxB.evidence_scenes.length : Nat) = 10 := by
      decide
    unfold overlapFracMax
    simp only [hI, hL]
    norm_num
  refine ⟨?_, by decide, ?_⟩
  · have hI : evidenceInter cxA.evidence_scenes cxB.evidence_scenes = 2 := by decide
    have hL : (min cxA.evidence_scenes.length cxB.evidence_scenes.length : Nat) = 2 := by
      decide
    unfold overlapFracMin
    rw [hI, hL]
    norm_num
  · have hlt : overlapFracMax cxA.evidence_scenes cxB.evidence_scenes < 4/5 := by
      rw [hmax]; norm_num
    unfold check_antagonist_mutual_exclusion
    norm_num [List.enum]
    unfold caOuter caInner
    simp [hlt, caOuter, caInner]

/-- Claim C5 (amended): a pair of threads is merged by the antagonist-mirror
merge exactly when the overlap ratio with the maximum-length denominator
reaches 0.8 and the objectives contain an opposition pair on opposite sides;
the survivor is the higher-confidence thread (the anchor on ties) carrying
the sorted union of both evidence-scene sets. -/
theorem c5_antagonist_merge_max_denominator (t1 t2 : TCC) :
    ((4/5 : ℚ) ≤ overlapFracMax t1.evidence_scenes t2.evidence_scenes →
      isOpposition (strLower t1.super_objective) (strLower t2.super_objective)
        = true →
      (check_antagonist_mutual_exclusion [t1, t2]).1
        = [{ (if t2.confidence ≤ t1.confidence then t1 else t2) with
             evidence_scenes :=
               sortedUnion t1.evidence_scenes t2.evidence_scenes }]) ∧
    (overlapFracMax t1.evidence_scenes t2.evidence_scenes < 4/5 ∨
      isOpposition (strLower t1.super_objective) (strLower t2.super_objective)
        = false →
      (check_antagonist_mutual_exclusion [t1, t2]).1 = [t1, t2]) := by
  constructor
  · intro hr hop
    unfold check_antagonist_mutual_exclusion
    simp only [List.length_cons, List.length_nil, List.enum]
    norm_num
    unfold caOuter caInner
    simp [not_lt.mpr hr, hop, caOuter, caInner]
  · intro hcase
    unfold check_antagonist_mutual_exclusion
    simp only [List.length_cons, List.length_nil, List.enum]
    norm_num
    unfold caOuter caInner
    rcases hcase with hr | hop
    · simp [hr, caOuter, caInner]
    · by_cases hr : overlapFracMax t1.evidence_scenes t2.evidence_scenes < 4/5
      · simp [hr, caOuter, caInner]
      · simp [hr, hop, caOuter, caInner]

/-- Witness for C5 (amended): wmA and wmB share 4 of maximum-length 5
evidence scenes (ratio exactly 0.8) with opposition words stop and achieve,
so they merge into the higher-confidence wmB carrying the union S01-S05. -/
theorem c5_antagonist_merge_max_denominator_witness :
    (check_antagonist_mutual_exclusion [wmA, wmB]).1
      = [{ (if wmB.confidence ≤ wmA.confidence then wmA else wmB) with
           evidence_scenes :=
             sortedUnion wmA.evidence_scenes wmB.evidence_scenes }] := by
  have hr : (4/5 : ℚ) ≤ overlapFracMax wmA.evidence_scenes wmB.evidence_scenes := by
    have hI : evidenceInter wmA.evidence_scenes wmB.evidence_scenes = 4 := by decide
    have hL : (max wmA.evidence_scenes.length wmB.evidence_scenes.length : Nat) = 5 := by
      decide
    unfold overlapFracMax
    simp only [hI, hL]
    norm_num
  exact (c5_antagonist_merge_max_denominator wmA wmB).1 hr (by decide)

/-- The freshly written row always carries the key it was written under. -/
lemma setRow_key_matches (h p m : String) (pl : SetPayload) (now d : Nat) :
    rowKeyMatches h p m (setRow h p m pl now d) = true := by
  simp [rowKeyMatches, setRow]

/-- After one upsert under a key whose row count obeys the UNIQUE constraint,
the rows under that key are exactly the freshly written row. -/
lemma upsert_filter_eq (h p m : String) (pl : SetPayload) (now d : Nat) :
    ∀ rows : List CacheRow, keyCount h p m rows ≤ 1 →
      (upsertRows (setRow h p m pl now d) rows).filter (rowKeyMatches h p m)
        = [setRow h p m pl now d] := by
  intro rows
  induction rows with
  | nil =>
    intro _
    simp [upsertRows, setRow_key_matches]
  | cons r rs ih =>
    intro hc
    by_cases hm : rowKeyMatches h p m r = true
    · have hkeys : (r.content_hash = h ∧ r.provider = p) ∧ r.model = m := by
        simpa [rowKeyMatches, Bool.and_eq_true, decide_eq_true_eq] using hm
      have hcount : keyCount h p m rs = 0 := by
        have : keyCount h p m (r :: rs) = 1 + keyCount h p m rs := by
          simp [keyCount, List.filter_cons, hm]
          omega
        omega
      have hnil : rs.filter (rowKeyMatches h p m) = [] :=
        List.length_eq_zero.mp hcount
      obtain ⟨⟨h1, h2⟩, h3⟩ := hkeys
      cases r with
      | mk ch sn pv md ps s1 s2 s3 sc tc pt ac ca ea =>
        simp only at h1 h2 h3
        subst h1; subst h2; subst h3
        simp [upsertRows, setRow, rowKeyMatches, List.filter_cons, hnil]
    · have hskip : rowKeyMatches (setRow h p m pl now d).content_hash
          (setRow h p m pl now d).provider (setRow h p m pl now d).model r = false := by
        simpa [setRow] using eq_false_of_ne_true hm
      have hc2 : keyCount h p m rs ≤ 1 := by
        have : keyCount h p m (r :: rs) = keyCount h p m rs := by
          simp [keyCount, List.filter_cons, hm]
        omega
      have hmf : rowKeyMatches h p m r = false := eq_false_of_ne_true hm
      simp only [upsertRows, hskip, Bool.false_eq_true, if_false]
      rw [List.filter_cons_of_neg (by simp [hmf])]
      exact ih hc2

/-- An upsert grows the store by at most one row. -/
lemma upsert_length_le (nr : CacheRow) :
    ∀ rows : List CacheRow, (upsertRows nr rows).length ≤ rows.length + 1 := by
  intro rows
  induction rows with
  | nil => simp [upsertRows]
  | cons r rs ih =>
    by_cases hm : rowKeyMatches nr.content_hash nr.provider nr.model r = true
    · simp [upsertRows, hm]
    · simp only [upsertRows, eq_false_of_ne_true hm, Bool.false_eq_true, if_false,
        List.length_cons]
      omega

/-- An upsert under a key already present in the store updates in place and
leaves the row count unchanged. -/
lemma upsert_length_eq (h p m : String) (pl : SetPayload) (now d : Nat) :
    ∀ rows : List CacheRow, 0 < keyCount h p m rows →
      (upsertRows (setRow h p m pl now d) rows).length = rows.length := by
  intro rows
  induction rows with
  | nil => intro hc; simp [keyCount] at hc
  | cons r rs ih =>
    intro hc
    by_cases hm : rowKeyMatches h p m r = true
    · have : rowKeyMatches (setRow h p m pl now d).content_hash
          (setRow h p m pl now d).provider (setRow h p m pl now d).model r = true := by
        simpa [setRow] using hm
      simp [upsertRows, this]
    · have hskip : rowKeyMatches (setRow h p m pl now d).content_hash
          (setRow h p m pl now d).provider (setRow h p m pl now d).model r = false := by
        simpa [setRow] using eq_false_of_ne_true hm
      have hc2 : 0 < keyCount h p m rs := by
        have : keyCount h p m (r :: rs) = keyCount h p m rs := by
          simp [keyCount, List.filter_cons, hm]
        omega
      simp only [upsertRows, hskip, Bool.false_eq_true, if_false, List.length_cons]
      omega

/-- Claim C9: calling set twice with the same (content_hash, provider, model)
key on a store obeying the UNIQUE constraint leaves exactly one row under the
key; that row carries the second call's payload fields and the second call's
creation and expiry timestamps, and no duplicate row is ever inserted (the
second call leaves the row count unchanged, the first adds at most one). -/
theorem c9_set_upsert (db : CacheDb) (now1 now2 : Nat) (h p m : String)
    (pl1 pl2 : SetPayload) (d1 d2 : Nat)
    (hu : keyCount h p m db.rows ≤ 1) :
    keyCount h p m
      (CacheManager.set (CacheManager.set db now1 h p m pl1 d1)
        now2 h p m pl2 d2).rows = 1 ∧
    ((CacheManager.set (CacheManager.set db now1 h p m pl1 d1)
        now2 h p m pl2 d2).rows.filter (rowKeyMatches h p m))
      = [setRow h p m pl2 now2 d2] ∧
    (CacheManager.set (CacheManager.set db now1 h p m pl1 d1)
        now2 h p m pl2 d2).rows.length
      = (CacheManager.set db now1 h p m pl1 d1).rows.length ∧
    (CacheManager.set db now1 h p m pl1 d1).rows.length ≤ db.rows.length + 1 := by
  have h1 := upsert_filter_eq h p m pl1 now1 d1 db.rows hu
  have hc1 : keyCount h p m (CacheManager.set db now1 h p m pl1 d1).rows = 1 := by
    simp [CacheManager.set, keyCount, h1]
  have h2 := upsert_filter_eq h p m pl2 now2 d2
    (CacheManager.set db now1 h p m pl1 d1).rows (le_of_eq hc1)
  refine ⟨?_, ?_, ?_, ?_⟩
  · simp [CacheManager.set, keyCount] at h2 ⊢
    simp [h2]
  · simpa [CacheManager.set] using h2
  · exact upsert_length_eq h p m pl2 now2 d2 _ (by omega)
  · exact upsert_length_le _ _

/-- Witness for C9: two sets on an empty store with payloads differing in
scene_count leave one row whose fields are the second payload's. -/
theorem c9_set_upsert_witness :
    keyCount "k" "p" "m"
      (CacheManager.set (CacheManager.set { rows := [], hits := 0, misses := 0 }
        1 "k" "p" "m" plW1 90) 2 "k" "p" "m" plW2 90).rows = 1 ∧
    ((CacheManager.set (CacheManager.set { rows := [], hits := 0, misses := 0 }
        1 "k" "p" "m" plW1 90) 2 "k" "p" "m" plW2 90).rows.filter
      (rowKeyMatches "k" "p" "m")) = [setRow "k" "p" "m" plW2 2 90] := by
  have h := c9_set_upsert { rows := [], hits := 0, misses := 0 } 1 2 "k" "p" "m"
    plW1 plW2 90 90 (by decide)
  exact ⟨h.1, h.2.1⟩

/-- A discoverer failure entry carries the discoverer failure prefix. -/
lemma isFailureEntry_discoverer (msg : String) :
    isFailureEntry ("Discoverer error: " ++ msg) = true := by
  have h : "Discoverer error: ".data.isPrefixOf
      ("Discoverer error: " ++ msg).data = true := by
    rw [show ("Discoverer error: " ++ msg).data
        = "Discoverer error: ".data ++ msg.data from rfl,
      List.isPrefixOf_iff_prefix]
    exact List.prefix_append _ _
  simp [isFailureEntry, strStartsWithChars, h]

/-- An auditor failure entry carries the auditor failure prefix. -/
lemma isFailureEntry_auditor (msg : String) :
    isFailureEntry ("Auditor error: " ++ msg) = true := by
  have h : "Auditor error: ".data.isPrefixOf
      ("Auditor error: " ++ msg).data = true := by
    rw [show ("Auditor error: " ++ msg).data
        = "Auditor error: ".data ++ msg.data from rfl,
      List.isPrefixOf_iff_prefix]
    exact List.prefix_append _ _
  simp [isFailureEntry, strStartsWithChars, h]

/-- A modifier failure entry carries the modifier failure prefix. -/
lemma isFailureEntry_modifier (msg : String) :
    isFailureEntry ("Modifier error: " ++ msg) = true := by
  have h : "Modifier error: ".data.isPrefixOf
      ("Modifier error: " ++ msg).data = true := by
    rw [show ("Modifier error: " ++ msg).data
        = "Modifier error: ".data ++ msg.data from rfl,
      List.isPrefixOf_iff_prefix]
    exact List.prefix_append _ _
  simp [isFailureEntry, strStartsWithChars, h]

/-- An independence warning never carries a failure prefix. -/
lemma isFailureEntry_warning (rest : String) :
    isFailureEntry ("High overlap between " ++ rest) = false := by
  simp [isFailureEntry, strStartsWithChars,
    show ("High overlap between " ++ rest).data
      = "High overlap between ".data ++ rest.data from rfl,
    List.isPrefixOf]

/-- The per-anchor warning list contains no failure entries. -/
lemma tccIndepWarnAgainst_no_failure (t : TCC) :
    ∀ rest : List TCC,
      (tccIndepWarnAgainst t rest).filter isFailureEntry = [] := by
  intro rest
  induction rest with
  | nil => rfl
  | cons t2 ts ih =>
    simp only [tccIndepWarnAgainst] at ih ⊢
    simp only [List.flatMap_cons, List.filter_append, ih, List.append_nil]
    split
    · simp [List.filter_cons, independence_warning, isFailureEntry_warning]
    · rfl

/-- The success path's independence warnings contain no failure entries. -/
lemma filter_indep_warnings (tccs : List TCC) :
    (validate_tcc_independence tccs).filter isFailureEntry = [] := by
  induction tccs with
  | nil => rfl
  | cons t ts ih =>
    simp only [validate_tcc_independence, List.filter_append, ih,
      List.append_nil, tccIndepWarnAgainst_no_failure]

/-- The success step of the discoverer completes the stage, leaves the shared
counter unchanged, records an output, and appends no failure-tagged entry
(the warnings it may append carry a different head). -/
lemma discovererStep_success (st : PipeState DiscovererOutput β γ)
    (out : DiscovererOutput) :
    (discovererStep st (Outcome.success out)).current_stage
      = "discoverer_completed" ∧
    (discovererStep st (Outcome.success out)).retry_count = st.retry_count ∧
    (discovererStep st (Outcome.success out)).discoverer_output.isSome = true ∧
    ((discovererStep st (Outcome.success out)).errors.filter isFailureEntry)
      = st.errors.filter isFailureEntry := by
  refine ⟨?_, ?_, ?_, ?_⟩ <;> unfold discovererStep <;> simp only []
  · split <;> rfl
  · split <;> rfl
  · split <;> rfl
  · split
    · split
      · rfl
      · simp [List.filter_append, filter_indep_warnings]
    · rfl

/-- Master invariant of the graph loop: started at any node with enough fuel,
one failure-tagged error per recorded failure so far, the shared retry
counter below its cap and the already-completed stages' outputs present, the
loop ends in a state satisfying all final-state guarantees. -/
lemma runFrom_good (oD : Nat → Outcome DiscovererOutput) (oA : Nat → Outcome β)
    (oM : Nat → Outcome γ) :
    ∀ (fuel : Nat) (node : Node) (st : PipeState DiscovererOutput β γ)
      (nD nA nM : Nat),
      pipeMeasure node st ≤ fuel →
      (st.errors.filter isFailureEntry).length = st.retry_count →
      st.retry_count < 3 →
      (node = Node.auditor → st.discoverer_output.isSome = true) →
      (node = Node.modifier →
        st.discoverer_output.isSome = true ∧ st.auditor_output.isSome = true) →
      goodFinal (runFrom oD oA oM fuel node st nD nA nM) := by
  intro fuel
  induction fuel with
  | zero =>
    intro node st nD nA nM hm he hr hA hM
    exfalso
    cases node <;> simp [pipeMeasure] at hm
  | succ fuel ih =>
    intro node st nD nA nM hm he hr hA hM
    cases node with
    | discoverer =>
      cases hout : oD nD with
      | success out =>
        obtain ⟨hstage, hretry, hsome, herr⟩ := discovererStep_success st out
        have hroute : should_continue_to_auditor
            (discovererStep st (Outcome.success out)) = Next.auditor := by
          simp [should_continue_to_auditor, hstage]
        simp only [runFrom, hout, hroute]
        refine ih Node.auditor (discovererStep st (Outcome.success out))
          (nD + 1) nA nM ?_ ?_ ?_ ?_ ?_
        · simp only [pipeMeasure, hretry] at hm ⊢
          omega
        · rw [herr, he, hretry]
        · rw [hretry]; exact hr
        · intro _
          exact hsome
        · intro h
          exact absurd h (by simp)
      | failure msg =>
        by_cases hlt : st.retry_count + 1 < 3
        · have hroute : should_continue_to_auditor
              (discovererStep st (Outcome.failure msg)) = Next.discoverer := by
            simp [should_continue_to_auditor, discovererStep, hlt]
          simp only [runFrom, hout, hroute]
          refine ih Node.discoverer (discovererStep st (Outcome.failure msg))
            (nD + 1) nA nM ?_ ?_ ?_ ?_ ?_
          · simp only [pipeMeasure, discovererStep] at hm ⊢
            omega
          · simp [discovererStep, List.filter_append, List.filter_cons,
              isFailureEntry_discoverer, he]
          · simpa [discovererStep] using hlt
          · intro h
            exact absurd h (by simp)
          · intro h
            exact absurd h (by simp)
        · have hroute : should_continue_to_auditor
              (discovererStep st (Outcome.failure msg)) = Next.endRun := by
            simp [should_continue_to_auditor, discovererStep, hlt]
          simp only [runFrom, hout, hroute]
          unfold goodFinal
          refine ⟨by simp [discovererStep, List.filter_append, List.filter_cons,
              isFailureEntry_discoverer, he],
            by simp [discovererStep]; omega, ?_, ?_, ?_, ?_⟩
          · right
            refine ⟨by simp [discovererStep]; omega, Or.inl (by simp [discovererStep])⟩
          · intro h
            rcases h with h | h | h <;>
              · simp [discovererStep] at h
          · intro h
            rcases h with h | h <;>
              · simp [discovererStep] at h
          · intro h
            simp [discovererStep] at h
    | auditor =>
      cases hout : oA nA with
      | success out =>
        have hroute : should_continue_to_modifier
            (auditorStep st (Outcome.success out)) = Next.modifier := by
          simp [should_continue_to_modifier, auditorStep]
        simp only [runFrom, hout, hroute]
        refine ih Node.modifier (auditorStep st (Outcome.success out))
          nD (nA + 1) nM ?_ ?_ ?_ ?_ ?_
        · simp only [pipeMeasure, auditorStep] at hm ⊢
          omega
        · simpa [auditorStep] using he
        · simpa [auditorStep] using hr
        · intro h
          exact absurd h (by simp)
        · intro _
          exact ⟨by simpa [auditorStep] using hA rfl, by simp [auditorStep]⟩
      | failure msg =>
        by_cases hlt : st.retry_count + 1 < 3
        · have hroute : should_continue_to_modifier
              (auditorStep st (Outcome.failure msg)) = Next.auditor := by
            simp [should_continue_to_modifier, auditorStep, hlt]
          simp only [runFrom, hout, hroute]
          refine ih Node.auditor (auditorStep st (Outcome.failure msg))
            nD (nA + 1) nM ?_ ?_ ?_ ?_ ?_
          · simp only [pipeMeasure, auditorStep] at hm ⊢
            omega
          · simp [auditorStep, List.filter_append, List.filter_cons,
              isFailureEntry_auditor, he]
          · simpa [auditorStep] using hlt
          · intro _
            simpa [auditorStep] using hA rfl
          · intro h
            exact absurd h (by simp)
        · have hroute : should_continue_to_modifier
              (auditorStep st (Outcome.failure msg)) = Next.endRun := by
            simp [should_continue_to_modifier, auditorStep, hlt]
          simp only [runFrom, hout, hroute]
          unfold goodFinal
          refine ⟨by simp [auditorStep, List.filter_append, List.filter_cons,
              isFailureEntry_auditor, he],
            by simp [auditorStep]; omega, ?_, ?_, ?_, ?_⟩
          · right
            refine ⟨by simp [auditorStep]; omega,
              Or.inr (Or.inl (by simp [auditorStep]))⟩
          · intro _
            simpa [auditorStep] using hA rfl
          · intro h
            rcases h with h | h <;>
              · simp [auditorStep] at h
          · intro h
            simp [auditorStep] at h
    | modifier =>
      cases hout : oM nM with
      | success out =>
        have hroute : should_end
            (modifierStep st (Outcome.success out)) = Next.endRun := by
          simp [should_end, modifierStep]
        simp only [runFrom, hout, hroute]
        unfold goodFinal
        obtain ⟨hd, ha⟩ := hM rfl
        refine ⟨by simp [modifierStep, he], by simp [modifierStep]; omega,
          Or.inl (by simp [modifierStep]), ?_, ?_, ?_⟩
        · intro _
          simpa [modifierStep] using hd
        · intro _
          simpa [modifierStep] using ha
        · intro _
          simp [modifierStep]
      | failure msg =>
        by_cases hlt : st.retry_count + 1 < 3
        · have hroute : should_end
              (modifierStep st (Outcome.failure msg)) = Next.modifier := by
            simp [should_end, modifierStep, hlt]
          simp only [runFrom, hout, hroute]
          refine ih Node.modifier (modifierStep st (Outcome.failure msg))
            nD nA (nM + 1) ?_ ?_ ?_ ?_ ?_
          · simp only [pipeMeasure, modifierStep] at hm ⊢
            omega
          · simp [modifierStep, List.filter_append, List.filter_cons,
              isFailureEntry_modifier, he]
          · simpa [modifierStep] using hlt
          · intro h
            exact absurd h (by simp)
          · intro _
            obtain ⟨hd, ha⟩ := hM rfl
            exact ⟨by simpa [modifierStep] using hd, by simpa [modifierStep] using ha⟩
        · have hroute : should_end
              (modifierStep st (Outcome.failure msg)) = Next.endRun := by
            simp [should_end, modifierStep, hlt]
          simp only [runFrom, hout, hroute]
          unfold goodFinal
          obtain ⟨hd, ha⟩ := hM rfl
          refine ⟨by simp [modifierStep, List.filter_append, List.filter_cons,
              isFailureEntry_modifier, he],
            by simp [modifierStep]; omega, ?_, ?_, ?_, ?_⟩
          · right
            refine ⟨by simp [modifierStep]; omega,
              Or.inr (Or.inr (by simp [modifierStep]))⟩
          · intro _
            simpa [modifierStep] using hd
          · intro _
            simpa [modifierStep] using ha
          · intro h
            simp [modifierStep] at h

/-- Claim C3: every recoverable stage failure appends one failure-tagged
error entry and increments the single retry counter shared by the three
stages, while the discoverer's success path leaves the counter untouched and
appends no failure-tagged entry (only independence warnings, as the source
does); the routing functions re-enter the failed stage while the counter is
below 3 and route to END once it is not; the stage steps never erase earlier
outputs; and every run returns (never raises) a final state whose
failure-tagged error entries number exactly the recorded failures (so the
error list has an entry for every failure), with the counter capped at 3,
either the completed stage or a failed stage with the counter exhausted, and
the outputs produced before the failure preserved. -/
theorem c3_retry_semantics :
    (∀ (β γ : Type) (st : PipeState DiscovererOutput β γ) (msg : String),
      (discovererStep st (Outcome.failure msg)).retry_count = st.retry_count + 1 ∧
      (discovererStep st (Outcome.failure msg)).errors
        = st.errors ++ ["Discoverer error: " ++ msg] ∧
      (auditorStep st (Outcome.failure msg)).retry_count = st.retry_count + 1 ∧
      (auditorStep st (Outcome.failure msg)).errors
        = st.errors ++ ["Auditor error: " ++ msg] ∧
      (modifierStep st (Outcome.failure msg)).retry_count = st.retry_count + 1 ∧
      (modifierStep st (Outcome.failure msg)).errors
        = st.errors ++ ["Modifier error: " ++ msg]) ∧
    (∀ (β γ : Type) (st : PipeState DiscovererOutput β γ) (out : DiscovererOutput),
      (discovererStep st (Outcome.success out)).retry_count = st.retry_count ∧
      ((discovererStep st (Outcome.success out)).errors.filter isFailureEntry)
        = st.errors.filter isFailureEntry ∧
      (discovererStep st (Outcome.success out)).current_stage
        = "discoverer_completed") ∧
    (∀ (α β γ : Type) (st : PipeState α β γ) (oB : Outcome β) (oC : Outcome γ),
      (auditorStep st oB).discoverer_output = st.discoverer_output ∧
      (modifierStep st oC).discoverer_output = st.discoverer_output ∧
      (modifierStep st oC).auditor_output = st.auditor_output) ∧
    (∀ (α β γ : Type) (st : PipeState α β γ),
      (st.current_stage ≠ "discoverer_completed" → st.retry_count < 3 →
        should_continue_to_auditor st = Next.discoverer) ∧
      (st.current_stage ≠ "discoverer_completed" → ¬ st.retry_count < 3 →
        should_continue_to_auditor st = Next.endRun) ∧
      (st.current_stage ≠ "auditor_completed" → st.retry_count < 3 →
        should_continue_to_modifier st = Next.auditor) ∧
      (st.current_stage ≠ "auditor_completed" → ¬ st.retry_count < 3 →
        should_continue_to_modifier st = Next.endRun) ∧
      (st.current_stage ≠ "modifier_completed" → st.retry_count < 3 →
        should_end st = Next.modifier) ∧
      (st.current_stage ≠ "modifier_completed" → ¬ st.retry_count < 3 →
        should_end st = Next.endRun)) ∧
    (∀ (β γ : Type) (oD : Nat → Outcome DiscovererOutput) (oA : Nat → Outcome β)
      (oM : Nat → Outcome γ),
      goodFinal (run_pipeline oD oA oM) ∧
      (run_pipeline oD oA oM).retry_count
        ≤ (run_pipeline oD oA oM).errors.length) := by
  refine ⟨?_, ?_, ?_, ?_, ?_⟩
  · intro β γ st msg
    refine ⟨rfl, rfl, rfl, rfl, rfl, rfl⟩
  · intro β γ st out
    obtain ⟨h1, h2, _, h4⟩ := discovererStep_success st out
    exact ⟨h2, h4, h1⟩
  · intro α β γ st oB oC
    refine ⟨?_, ?_, ?_⟩
    · cases oB <;> rfl
    · cases oC <;> rfl
    · cases oC <;> rfl
  · intro α β γ st
    refine ⟨?_, ?_, ?_, ?_, ?_, ?_⟩ <;> intro h1 h2 <;>
      simp [should_continue_to_auditor, should_continue_to_modifier, should_end,
        h1, h2]
  · intro β γ oD oA oM
    have hg : goodFinal (run_pipeline oD oA oM) :=
      runFrom_good oD oA oM 15 Node.discoverer initState 0 0 0
        (by simp [pipeMeasure, initState]) rfl (by simp [initState])
        (by intro h; exact absurd h (by simp))
        (by intro h; exact absurd h (by simp))
    refine ⟨hg, ?_⟩
    rw [← hg.1]
    exact List.length_filter_le _ _

/-- Witness for C3: a failed-stage state with one prior failure is routed
back into the discoverer while the shared counter is below 3. -/
theorem c3_retry_semantics_witness :
    should_continue_to_auditor
      ({ discoverer_output := none, auditor_output := none, modifier_output := none,
         current_stage := "discoverer_failed", errors := ["Discoverer error: x"],
         retry_count := 1 } : PipeState Unit Unit Unit) = Next.discoverer :=
  (c3_retry_semantics.2.2.2.1 Unit Unit Unit
    { discoverer_output := none, auditor_output := none, modifier_output := none,
      current_stage := "discoverer_failed", errors := ["Discoverer error: x"],
      retry_count := 1 }).1 (by decide) (by decide)

end SA
